import Mathlib

/-!
Shallow embedding of the proxy/fetch middleware of the playwright-service
repository, together with proofs checking the natural-language specification
against it.

Each definition is translated from the named source function; doc comments
point at the file and function embedded.
-/

namespace PlaywrightService

/-! ## String helpers modelling Python primitives -/

/-- Python `p in t` on character lists: `true` iff `p` occurs as a contiguous
substring of `t` (every pattern used in the repository is non-empty). -/
def listContainsSub (p : List Char) : List Char → Bool
  | [] => p.isEmpty
  | c :: rest => p.isPrefixOf (c :: rest) || listContainsSub p rest

/-- Python `p in s` on strings. -/
def strContains (p s : String) : Bool :=
  listContainsSub p.data s.data

/-- Python `s.upper()` (ASCII part, which is all the classifier inspects). -/
def strUpper (s : String) : String :=
  String.mk (s.data.map Char.toUpper)

/-- Python `s.lower()` (ASCII part, which is all the classifier inspects). -/
def strLower (s : String) : String :=
  String.mk (s.data.map Char.toLower)

/-! ## src/base_proxy.py — exception classification -/

/-- `PROXY_ERROR_PATTERNS` from src/base_proxy.py (lines 38-45). -/
def PROXY_ERROR_PATTERNS : List String :=
  [ "net::ERR_TUNNEL_CONNECTION_FAILED"
  , "NS_ERROR_PROXY_CONNECTION_REFUSED"
  , "NS_ERROR_NET_EMPTY_RESPONSE"
  , "ERR_PROXY_CONNECTION_FAILED"
  , "Proxy connection refused"
  , "Could not connect to proxy"
  ]

/-- Loop body of `is_proxy_error` (src/base_proxy.py lines 113-125): for each
pattern, if the pattern occurs in the message classify by the pattern text;
otherwise (`elif`, still inside the loop) if `"PROXY"` occurs in the upper-cased
message return the generic proxy reason; otherwise continue with the next
pattern. -/
def is_proxy_error_loop (error_str : String) : List String → Bool × String
  | [] => (false, "")
  | pat :: rest =>
    if strContains pat error_str then
      if strContains "TUNNEL" pat then (true, "tunnel_failed")
      else if strContains "REFUSED" pat || strContains "refused" (strLower pat) then
        (true, "connection_refused")
      else (true, "other")
    else if strContains "PROXY" (strUpper error_str) then
      (true, "other proxy_error: " ++ error_str)
    else is_proxy_error_loop error_str rest

/-- `is_proxy_error` from src/base_proxy.py (lines 103-125), applied to
`str(error)`, the exception message. -/
def is_proxy_error (error_str : String) : Bool × String :=
  is_proxy_error_loop error_str PROXY_ERROR_PATTERNS

/-! ## src/base_proxy.py — proxy error pages and the DOM leaf count -/

/-- Node of a parsed HTML document, as much structure as
`count_leaf_nodes` (src/utils/html_utils.py) inspects: each node carries its
list of children. -/
inductive DomNode where
  | node (children : List DomNode)
deriving Repr

mutual

/-- `count_leaf_nodes` / inner `count_leaves` from src/utils/html_utils.py
(lines 14-32): a node with no children counts 1, otherwise the leaves of the
children are summed. -/
def count_leaf_nodes : DomNode → Nat
  | .node cs => if cs.isEmpty then 1 else count_leaf_nodes_list cs

/-- Sum of `count_leaf_nodes` over a child list (the `for child in
node.children` loop of src/utils/html_utils.py). -/
def count_leaf_nodes_list : List DomNode → Nat
  | [] => 0
  | c :: cs => count_leaf_nodes c + count_leaf_nodes_list cs

end

/-- `PROXY_ERROR_PAGE_PATTERNS` from src/base_proxy.py (lines 50-59). -/
def PROXY_ERROR_PAGE_PATTERNS : List String :=
  [ "ErrorCode:631"
  , "ErrorCode:632"
  , "ErrorCode:633"
  , "ErrorCode:634"
  , "ErrorCode:635"
  , "Proxy Error"
  , "代理错误"
  , "隧道连接失败"
  ]

/-- Pattern scan of `is_proxy_error_page` (src/base_proxy.py lines 95-100):
first pattern contained in the page content wins. -/
def page_pattern_scan (page_content : String) : List String → Bool × String
  | [] => (false, "")
  | pat :: rest =>
    if strContains pat page_content then (true, pat)
    else page_pattern_scan page_content rest

/-- `is_proxy_error_page` from src/base_proxy.py (lines 71-100). The call
`JustHTML(page_content)` to the external HTML parser is abstracted as the
`parse` argument; everything after it is translated from the source: empty
content short-circuits to `(False, "")`, then the leaf-node check runs, then
the content-pattern scan. -/
def is_proxy_error_page (parse : String → DomNode) (page_content : String) :
    Bool × String :=
  if page_content.data.isEmpty then (false, "")
  else if count_leaf_nodes (parse page_content) < 32 then
    (true, "leaf_nodes_too_few")
  else page_pattern_scan page_content PROXY_ERROR_PAGE_PATTERNS

/-! ## src/encoding_utils.py — mojibake detection -/

/-- Python `text.count(pattern)` on character lists: number of non-overlapping
occurrences, scanning left to right (the repository only counts non-empty
patterns; an empty pattern yields `length + 1` as in Python). -/
def pyCount (p : List Char) : List Char → Nat
  | [] => if p.isEmpty then 1 else 0
  | c :: rest =>
    if h : ¬ p.isEmpty ∧ p.isPrefixOf (c :: rest) then
      1 + pyCount p (rest.drop (p.length - 1))
    else pyCount p rest
termination_by t => t.length
decreasing_by
  · simp only [List.length_cons]
    have := List.length_drop (p.length - 1) rest
    omega
  · simp [Nat.lt_succ_self]

/-- `garbled_patterns` from `_has_decoding_errors` (src/encoding_utils.py
line 210). -/
def garbled_patterns : List (List Char) :=
  [ "锟斤拷".data, "锟".data, "ï¿½".data, "â€".data, "Ã©".data, "Ã¨".data
  , "Ã¯".data ]

/-- Total count of suspicious markers of `_has_decoding_errors`
(src/encoding_utils.py lines 206-213): occurrences of U+FFFD plus occurrences
of each garbled pattern, counted over the whole text. -/
def total_suspicious (text : List Char) : Nat :=
  pyCount [(Char.ofNat 0xFFFD)] text
    + (garbled_patterns.map (fun p => pyCount p text)).sum

/-- `_has_decoding_errors` from src/encoding_utils.py (lines 190-220) at the
default threshold `0.05`: empty text is accepted, otherwise the text is
rejected iff `total_suspicious / min(len(text), 10000) > 0.05` (an exact
rational comparison; for the integer ranges involved the Python float
comparison agrees with the rational one). -/
def has_decoding_errors (text : List Char) : Bool :=
  if text.isEmpty then false
  else
    let sample_length := min text.length 10000
    decide ((total_suspicious text : ℚ) / (sample_length : ℚ) > 5 / 100)

/-! ## src/schemas/service_schema.py — response record -/

/-- `HtmlResponse` from src/schemas/service_schema.py: html body, page status
code (HTTP or synthetic 6xx), error text and cache-hit flag. -/
structure HtmlResponse where
  html : String
  page_status_code : Int
  page_error : String
  cache_hit : Nat := 0
deriving Repr, DecidableEq

/-! ## src/apis/utils.py — forced content read on timeout -/

/-- Loop of `force_get_content` (src/apis/utils.py lines 639-656) over the
outcomes of the successive `page.content()` reads: a successful read replaces
the harvested body and stops the loop when the body is non-empty and longer
than 5000 characters; a failing read records the exception message as
`last_error`. Returns the final `(html_content, last_error)` pair. -/
def force_get_content_loop :
    List (Except String String) → Option String → Option String →
      Option String × Option String
  | [], h, l => (h, l)
  | .ok content :: rest, _, l =>
    if ¬ content.data.isEmpty ∧ content.length > 5000 then (some content, l)
    else force_get_content_loop rest (some content) l
  | .error e :: rest, h, _ => force_get_content_loop rest h (some e)

/-- `force_get_content` from src/apis/utils.py (lines 633-657): up to three
read iterations (`for attempt in range(3)`), each modelled by one entry of
`reads` giving the outcome of that iteration's `page.content()` call (the
sleeps and the best-effort `wait_for_load_state` have no observable effect on
the returned value). -/
def force_get_content (reads : List (Except String String)) :
    Option String × Option String :=
  force_get_content_loop (reads.take 3) none none

/-- `_html_timeout_handler` from src/apis/utils.py (lines 728-774). The
`Except` error carries the `ProxyPageError` pattern raised back to the retry
loop; `timeout_msg` is the text of the navigation timeout error. The
`except Exception` arm (line 760) is unreachable in the model because the
embedded page check is total. -/
def html_timeout_handler (parse : String → DomNode)
    (is_force_get_content : Bool) (reads : List (Except String String))
    (timeout_msg : String) : Except String HtmlResponse :=
  if is_force_get_content then
    match force_get_content reads with
    | (some html_content, last_error) =>
      if ¬ html_content.data.isEmpty ∧ html_content.length > 5000 then
        match is_proxy_error_page parse html_content with
        | (true, detected_pattern) => .error detected_pattern
        | (false, _) =>
          .ok { html := html_content
              , page_status_code := if last_error.isNone then 600 else 601
              , page_error :=
                  match last_error with
                  | none => "page load timeout, " ++ timeout_msg
                  | some le =>
                    "page load failed while force read content, " ++ le }
      else
        .ok { html := "", page_status_code := 601
            , page_error := "page load timeout, " ++ timeout_msg }
    | (none, _) =>
      .ok { html := "", page_status_code := 601
          , page_error := "page load timeout, " ++ timeout_msg }
  else
    .ok { html := "", page_status_code := 601
        , page_error := "page load timeout, " ++ timeout_msg }

/-! ## src/apis/utils.py — proxy retry state machine -/

/-- `MAX_PROXY_RETRY_ATTEMPTS` from src/apis/utils.py (line 64). -/
def MAX_PROXY_RETRY_ATTEMPTS : Nat := 3

/-- Outcome of one navigation attempt (`navigation_handler` call) inside
`execute_with_proxy_retry`:
either a successful response, a navigation timeout (carrying the result of the
operation's timeout handler, which may itself escape with a `ProxyPageError`
pattern), a `ProxyPageError` raised by the navigation handler, or any other
exception with its message. -/
inductive NavOutcome where
  | success (r : HtmlResponse)
  | timeout (handler : Except String HtmlResponse)
  | proxyPage (code : String)
  | exn (msg : String)

/-- Observable outcome of `execute_with_proxy_retry`: the single result
returned, the number of navigation attempts performed, and the reasons of the
`ProxyPool.invalidate_proxy` calls in order. -/
structure RetryOutcome where
  result : HtmlResponse
  navigations : Nat
  invalidations : List String
deriving Repr, DecidableEq

/-- The `while ctx.retry_count < MAX_PROXY_RETRY_ATTEMPTS` loop of
`execute_with_proxy_retry` (src/apis/utils.py lines 452-548), with
`_handle_proxy_page_error` (lines 365-415) inlined at its two call sites.
`attempt n` is the outcome of the `n`-th navigation attempt (0-based);
`retry_count`, the attempt count and the invalidation reasons are threaded
explicitly. Timeouts return the timeout handler's result without retry unless
the handler escalates a proxy error page; proxy-classified exceptions and
proxy error pages increment the retry counter, invalidate the proxy, and
either recreate the session and loop or exhaust with synthetic status 604/605;
other exceptions invalidate with reason `browser_error` and stop with 602. -/
def execute_retry_loop (attempt : Nat → NavOutcome) :
    Nat → Nat → List String → RetryOutcome
  | retry_count, nav, invs =>
    if _h : retry_count < MAX_PROXY_RETRY_ATTEMPTS then
      match attempt nav with
      | .success r => ⟨r, nav + 1, invs⟩
      | .timeout handler =>
        match handler with
        | .ok r => ⟨r, nav + 1, invs⟩
        | .error code =>
          let rc := retry_count + 1
          let invs' := invs ++ ["page_error_" ++ code]
          if rc < MAX_PROXY_RETRY_ATTEMPTS then
            execute_retry_loop attempt rc (nav + 1) invs'
          else
            ⟨{ html := "", page_status_code := 605
             , page_error := "Proxy page error after 3 retries: " ++ code }
            , nav + 1, invs'⟩
      | .proxyPage code =>
        let rc := retry_count + 1
        let invs' := invs ++ ["page_error_" ++ code]
        if rc < MAX_PROXY_RETRY_ATTEMPTS then
          execute_retry_loop attempt rc (nav + 1) invs'
        else
          ⟨{ html := "", page_status_code := 605
           , page_error := "Proxy page error after 3 retries: " ++ code }
          , nav + 1, invs'⟩
      | .exn msg =>
        match is_proxy_error msg with
        | (true, reason) =>
          let rc := retry_count + 1
          let invs' := invs ++ [reason]
          if rc < MAX_PROXY_RETRY_ATTEMPTS then
            execute_retry_loop attempt rc (nav + 1) invs'
          else
            ⟨{ html := "", page_status_code := 604
             , page_error := "Proxy error after 3 retries: " ++ msg }
            , nav + 1, invs'⟩
        | (false, _) =>
          ⟨{ html := "", page_status_code := 602
           , page_error := "page load failed, " ++ msg }
          , nav + 1, invs ++ ["browser_error"]⟩
    else
      ⟨{ html := "", page_status_code := 603
       , page_error := "Unknown error during operation" }, nav, invs⟩
termination_by retry_count => MAX_PROXY_RETRY_ATTEMPTS - retry_count
decreasing_by all_goals omega

/-- `execute_with_proxy_retry` from src/apis/utils.py (lines 418-548), entered
with a fresh `ProxyRetryContext` (`retry_count = 0`). -/
def execute_with_proxy_retry (attempt : Nat → NavOutcome) : RetryOutcome :=
  execute_retry_loop attempt 0 0 []

/-! ## src/models/request_history_model.py — response cache -/

/-- Seconds in `timedelta(days=1)`. -/
def ONE_DAY : Int := 86400

/-- `RequestHistoryModel` row from src/models/request_history_model.py, the
fields the cache lookup and the hit path read; `created_at` is a timestamp in
seconds. -/
structure HistoryRecord where
  url_hash : String
  browser_type : String
  status_code : Int
  response_body : String
  created_at : Int
deriving Repr, DecidableEq

/-- `RequestHistoryModel.get_request_history` from
src/models/request_history_model.py (lines 41-53): the first stored row whose
`url_hash` equals the SHA-256 of the url, whose `status_code` is 200, whose
`browser_type` matches, and whose `created_at` is newer than one day before
`now`. The SHA-256 digest is abstracted as the `hashUrl` argument; `db` is the
stored table in query order. -/
def get_request_history (hashUrl : String → String) (url browser_type : String)
    (now : Int) (db : List HistoryRecord) : Option HistoryRecord :=
  (db.filter (fun r =>
    r.url_hash == hashUrl url
      && r.status_code == 200
      && r.browser_type == browser_type
      && now - ONE_DAY < r.created_at)).head?

/-- Cache phase of `get_html_base` (src/apis/utils.py lines 796-811) together
with the history write that every non-cache-hit request performs in its
`finally` block through `record_operation_metrics` →
`create_request_history` (lines 896-913 and 561-619). When `use_cache` is set
and the lookup hits, the stored body is returned with `cache_hit = 1` and the
table is left untouched; otherwise the fetch runs (its result is the
`fetched` argument together with the row `newRecord` the finally block
appends) and the table grows by exactly that row. Returns the response and
the table afterwards. -/
def get_html_base_cache (hashUrl : String → String) (url browser_type : String)
    (use_cache : Bool) (now : Int) (db : List HistoryRecord)
    (fetched : HtmlResponse) (newRecord : HistoryRecord) :
    HtmlResponse × List HistoryRecord :=
  if use_cache then
    match get_request_history hashUrl url browser_type now db with
    | some request_history =>
      ({ html := request_history.response_body
       , page_status_code := request_history.status_code
       , page_error := ""
       , cache_hit := 1 }, db)
    | none => (fetched, db ++ [newRecord])
  else (fetched, db ++ [newRecord])

/-! ## src/base_proxy.py — proxy pool -/

/-- `CachedProxy` from src/base_proxy.py (lines 128-140); `created_at` is
dropped (never read by the claims). -/
structure CachedProxy where
  server : String
  proxy_type : String
  reuse_count : Nat
deriving Repr, DecidableEq

/-- Observable state of the `ProxyPool` singleton (src/base_proxy.py lines
242-390): the cached proxy and the `proxy_current_reuse_count` gauge. -/
structure PoolState where
  cached : Option CachedProxy
  current_reuse_gauge : Nat
deriving Repr, DecidableEq

/-- Pool state right after `__init__` (src/base_proxy.py lines 262-279): no
cached proxy. -/
def emptyPool : PoolState := ⟨none, 0⟩

/-- `ProxyPool.get_proxy` from src/base_proxy.py (lines 281-322). `fetched` is
what `self._proxy_manager.get_proxy()` would return when the fetch path runs,
and `ptype` is the configured proxy type recorded into a fresh entry. Returns
the proxy handed to the caller and the new pool state. -/
def pool_get_proxy (st : PoolState) (force_refresh : Bool)
    (fetched : Option String) (ptype : String) : Option String × PoolState :=
  match st.cached, force_refresh with
  | some cp, false =>
    let reuse_count := cp.reuse_count + 1
    (some cp.server, ⟨some { cp with reuse_count := reuse_count }, reuse_count⟩)
  | _, _ =>
    match fetched with
    | some proxy => (some proxy, ⟨some ⟨proxy, ptype, 1⟩, 1⟩)
    | none => (none, ⟨none, 0⟩)

/-- `ProxyPool.invalidate_proxy` from src/base_proxy.py (lines 324-344): drops
the cached proxy and zeroes the gauge. -/
def pool_invalidate_proxy (st : PoolState) : PoolState :=
  match st.cached with
  | some _ => ⟨none, 0⟩
  | none => st

/-- `ProxyPool.current_reuse_count` property (src/base_proxy.py lines
364-369). -/
def pool_current_reuse_count (st : PoolState) : Nat :=
  match st.cached with
  | some cp => cp.reuse_count
  | none => 0

/-- Burst of `n` consecutive `get_proxy(force_refresh=False)` calls starting
from the given state, the proxy manager answering `some proxy` whenever it is
consulted. -/
def pool_burst (proxy ptype : String) : Nat → PoolState
  | 0 => emptyPool
  | n + 1 => (pool_get_proxy (pool_burst proxy ptype n) false (some proxy) ptype).2

/-! ## src/apis/utils.py — orchestrator event order -/

/-- Observable steps of `get_html_base` (src/apis/utils.py lines 823-913) in
program order on the non-cache path. -/
inductive OrchEvent where
  | publishWaiting
  | requestProxy
  | acquireSlot
  | createBrowserPage
  | runStateMachine
  | closePageContext
  | releaseSlot
  | recordMetrics
deriving Repr, DecidableEq

/-- Statement order of `get_html_base` (src/apis/utils.py lines 823-913):
`get_waiting_requests()` publishes the gauge (line 824), the proxy is obtained
via `_get_proxy_settings` (line 831), `async with request_semaphore` acquires
the admission slot (line 833) and releases it when its block exits, the
browser page is created inside the block (line 839), `execute_with_proxy_retry`
runs (line 866), the inner `finally` closes page and context (lines 883-887),
and the outer `finally` records metrics and history (line 901). -/
def get_html_base_trace : List OrchEvent :=
  [ .publishWaiting, .requestProxy, .acquireSlot, .createBrowserPage
  , .runStateMachine, .closePageContext, .releaseSlot, .recordMetrics ]

/-- Number of admission slots held just before position `i` of a trace:
acquires minus releases among the first `i` events. -/
def slots_held (trace : List OrchEvent) (i : Nat) : Int :=
  ((trace.take i).count .acquireSlot : Int)
    - ((trace.take i).count .releaseSlot : Int)

/-! ## src/browsers — engine initialization failure -/

/-- Observable outcome of one `initialize(**kwargs)` call of a browser class:
whether the automation driver was started and stopped during the call, the
value left in `self.playwright`, and the returned browser (`none` when the
launch exception propagated). -/
structure InitOutcome where
  driver_started : Bool
  driver_stopped : Bool
  self_playwright_set : Bool
  returned_browser : Bool
deriving Repr, DecidableEq

/-- `ChromeBrowser.initialize` from src/browsers/chrome_browser.py (lines
31-69): the driver is started into a local variable (never assigned to
`self.playwright`, line 41) and `playwright.chromium.launch` follows with no
try/except, so when the launch fails (`launch_ok = false`) the exception
propagates with the driver still running. -/
def chrome_browser_init (launch_ok : Bool) : InitOutcome :=
  if launch_ok then
    { driver_started := true, driver_stopped := false
    , self_playwright_set := false, returned_browser := true }
  else
    { driver_started := true, driver_stopped := false
    , self_playwright_set := false, returned_browser := false }

/-- `FirefoxBrowser.initialize` from src/browsers/firefox_browser.py (lines
31-66): the driver is started and saved into `self.playwright` (line 41) and
`self.playwright.firefox.launch` follows with no try/except, so when the
launch fails the exception propagates with the driver still running and still
referenced. -/
def firefox_browser_init (launch_ok : Bool) : InitOutcome :=
  if launch_ok then
    { driver_started := true, driver_stopped := false
    , self_playwright_set := true, returned_browser := true }
  else
    { driver_started := true, driver_stopped := false
    , self_playwright_set := true, returned_browser := false }

/-- `WebKitBrowser.initialize` from src/browsers/webkit_browser.py (lines
32-59): the launch is wrapped in try/except; on failure `self.playwright.stop()`
is awaited, the reference is cleared, and the exception is re-raised. -/
def webkit_browser_init (launch_ok : Bool) : InitOutcome :=
  if launch_ok then
    { driver_started := true, driver_stopped := false
    , self_playwright_set := true, returned_browser := true }
  else
    { driver_started := true, driver_stopped := true
    , self_playwright_set := false, returned_browser := false }

/-- `BaseBrowser.ensure_initialized` from src/browsers/base_browser.py (lines
114-120) on an uninitialized instance: `self.browser` and `_is_initialized`
are assigned only after `initialize` returns, so a propagating initialization
failure leaves both untouched. Returns `(browser_set, is_initialized)`. -/
def ensure_initialized (init : InitOutcome) : Bool × Bool :=
  if init.returned_browser then (true, true) else (false, false)

/-! ## Concrete fixtures used by witnesses and counterexamples -/

/-- A 5001-character page body (just above the 5000-character acceptance
bound of `force_get_content`) containing no proxy-error marker. -/
def bigBody : String := String.mk (List.replicate 5001 'a')

/-- A parse function producing a tree with exactly 32 leaf nodes, the
smallest count that passes the leaf-node check. -/
def parse32 : String → DomNode := fun _ => .node (List.replicate 32 (.node []))

/-- The U+FFFD replacement character. -/
def replacementChar : Char := Char.ofNat 0xFFFD

/-- A 10501-character text whose first 10000 characters are clean and whose
last 501 characters are U+FFFD replacement characters. -/
def mojibake_text : List Char :=
  List.replicate 10000 'a' ++ List.replicate 501 replacementChar

/-! ## Helper lemmas -/

/-- A list with positive length is not empty. -/
theorem isEmpty_false_of_length_pos {α : Type} (l : List α) (h : 0 < l.length) :
    l.isEmpty = false := by
  cases l with
  | nil => simp at h
  | cons a t => rfl

/-- A pattern whose first character differs from `c` never occurs inside a
block of `c`s: searching it in `replicate n c ++ s` is searching it in `s`. -/
theorem listContainsSub_replicate_append (p : List Char) (c : Char)
    (hp : p ≠ []) (hh : p.head? ≠ some c) (n : Nat) (s : List Char) :
    listContainsSub p (List.replicate n c ++ s) = listContainsSub p s := by
  obtain ⟨a, t, rfl⟩ : ∃ a t, p = a :: t := by
    cases p with
    | nil => exact absurd rfl hp
    | cons a t => exact ⟨a, t, rfl⟩
  have hac : a ≠ c := by
    intro hcontra
    exact hh (by simp [hcontra])
  induction n with
  | zero => simp
  | succ n ih =>
    rw [List.replicate_succ, List.cons_append, listContainsSub]
    have hpre : (a :: t).isPrefixOf (c :: (List.replicate n c ++ s)) = false := by
      simp [List.isPrefixOf, hac]
    rw [hpre, Bool.false_or, ih]

/-- Special case: a pattern whose first character differs from `c` does not
occur in `replicate n c` at all. -/
theorem listContainsSub_replicate (p : List Char) (c : Char)
    (hp : p ≠ []) (hh : p.head? ≠ some c) (n : Nat) :
    listContainsSub p (List.replicate n c) = false := by
  have := listContainsSub_replicate_append p c hp hh n []
  rw [List.append_nil] at this
  rw [this]
  cases p with
  | nil => exact absurd rfl hp
  | cons a t => rfl

/-- Counting a pattern whose first character differs from `c` skips a leading
block of `c`s. -/
theorem pyCount_replicate_append (p : List Char) (c : Char)
    (hp : p ≠ []) (hh : p.head? ≠ some c) (n : Nat) (s : List Char) :
    pyCount p (List.replicate n c ++ s) = pyCount p s := by
  obtain ⟨a, t, rfl⟩ : ∃ a t, p = a :: t := by
    cases p with
    | nil => exact absurd rfl hp
    | cons a t => exact ⟨a, t, rfl⟩
  have hac : a ≠ c := by
    intro hcontra
    exact hh (by simp [hcontra])
  induction n with
  | zero => simp
  | succ n ih =>
    rw [List.replicate_succ, List.cons_append, pyCount]
    have hpre : ¬ (¬ (a :: t).isEmpty ∧
        (a :: t).isPrefixOf (c :: (List.replicate n c ++ s))) := by
      simp [List.isPrefixOf, hac]
    rw [dif_neg hpre, ih]

/-- Counting a pattern whose first character differs from `c` over a pure
block of `c`s gives zero. -/
theorem pyCount_replicate_zero (p : List Char) (c : Char)
    (hp : p ≠ []) (hh : p.head? ≠ some c) (n : Nat) :
    pyCount p (List.replicate n c) = 0 := by
  have := pyCount_replicate_append p c hp hh n []
  rw [List.append_nil] at this
  rw [this, pyCount]
  simp [List.isEmpty_iff, hp]

/-- Counting a single character over a block of that character gives the
length of the block. -/
theorem pyCount_single_replicate (c : Char) (n : Nat) :
    pyCount [c] (List.replicate n c) = n := by
  induction n with
  | zero =>
    rw [List.replicate_zero, pyCount]
    simp
  | succ n ih =>
    rw [List.replicate_succ, pyCount]
    have hpre : ¬ ([c] : List Char).isEmpty ∧
        ([c] : List Char).isPrefixOf (c :: List.replicate n c) := by
      simp [List.isPrefixOf]
    rw [dif_pos hpre]
    simp [ih]
    omega

/-- If some pattern of the list occurs in the body, the scan reports a proxy
error page. -/
theorem page_pattern_scan_pos (body : String) (pats : List String) (p : String)
    (hp : p ∈ pats) (hc : strContains p body = true) :
    (page_pattern_scan body pats).1 = true := by
  induction pats with
  | nil => cases hp
  | cons q rest ih =>
    rw [page_pattern_scan]
    by_cases hq : strContains q body = true
    · rw [if_pos hq]
    · rw [if_neg hq]
      rcases List.mem_cons.mp hp with hqp | hmem
      · exact absurd (hqp ▸ hc) hq
      · exact ih hmem

/-! ## Claim theorems -/

/-- C2: evaluation of `is_proxy_error` at the message
`"NS_ERROR_PROXY_CONNECTION_REFUSED"`. The claim says this message yields
reason `connection_refused`; the code's `elif "PROXY" in error_str.upper()`
sits inside the pattern loop, so it fires right after the first pattern fails
to match and yields the generic reason instead — the dedicated
`connection_refused` branch is unreachable for every message that contains
`PROXY`. -/
theorem C2_is_proxy_error_refused_eval :
    is_proxy_error "NS_ERROR_PROXY_CONNECTION_REFUSED" =
      (true, "other proxy_error: NS_ERROR_PROXY_CONNECTION_REFUSED") := by
  decide

/-- C10: an empty page body is never classified as a proxy error page,
whatever tree the HTML parser would produce for it — the empty-content check
short-circuits before the parser and the leaf-node count run. -/
theorem C10_empty_page_not_proxy_error_page (parse : String → DomNode) :
    is_proxy_error_page parse "" = (false, "") := rfl

/-- Witness for C10 at a concrete parse function whose tree has a single leaf
(fewer than 32). -/
theorem C10_empty_page_witness :
    is_proxy_error_page (fun _ => .node []) "" = (false, "") :=
  C10_empty_page_not_proxy_error_page (fun _ => .node [])

/-- C3 counterexample: the body `"ErrorCode:631"` parsed to a single-leaf
tree is classified as a proxy error page, but with reason
`leaf_nodes_too_few`, not `ErrorCode:631` as the claim states — the leaf-node
check runs before the content-pattern scan. -/
theorem C3_counterexample :
    is_proxy_error_page (fun _ => .node []) "ErrorCode:631" =
      (true, "leaf_nodes_too_few") := by
  decide

/-- C3 (amended): for every non-empty body, any of the listed content
patterns makes `is_proxy_error_page` report a proxy error page; a parsed DOM
with fewer than 32 leaf nodes is reported with reason `leaf_nodes_too_few`
and takes priority; the reason `ErrorCode:631` is reported for a body
containing that substring only when the parsed DOM has at least 32 leaf
nodes. -/
theorem C3_proxy_error_page_classification (parse : String → DomNode)
    (body : String) (hne : body.data ≠ []) :
    (count_leaf_nodes (parse body) < 32 →
        is_proxy_error_page parse body = (true, "leaf_nodes_too_few"))
    ∧ (∀ p ∈ PROXY_ERROR_PAGE_PATTERNS, strContains p body = true →
        (is_proxy_error_page parse body).1 = true)
    ∧ (32 ≤ count_leaf_nodes (parse body) →
        strContains "ErrorCode:631" body = true →
        is_proxy_error_page parse body = (true, "ErrorCode:631")) := by
  have hempty : body.data.isEmpty = false := by
    cases hb : body.data with
    | nil => exact absurd hb hne
    | cons a t => rfl
  refine ⟨fun hlt => ?_, fun p hp hc => ?_, fun hge hc => ?_⟩
  · rw [is_proxy_error_page, hempty]
    simp [hlt]
  · rw [is_proxy_error_page, hempty]
    by_cases hlt : count_leaf_nodes (parse body) < 32
    · simp [hlt]
    · simp only [Bool.false_eq_true, if_false, if_neg hlt]
      exact page_pattern_scan_pos body PROXY_ERROR_PAGE_PATTERNS p hp hc
  · rw [is_proxy_error_page, hempty]
    have hlt : ¬ count_leaf_nodes (parse body) < 32 := by omega
    simp only [Bool.false_eq_true, if_false, if_neg hlt]
    rw [PROXY_ERROR_PAGE_PATTERNS, page_pattern_scan, if_pos hc]

/-- Witness for C3 (amended): a body containing `ErrorCode:631` whose parsed
DOM has 32 leaf nodes is reported with reason `ErrorCode:631`. -/
theorem C3_classification_witness :
    ("ErrorCode:631" : String).data ≠ []
      ∧ is_proxy_error_page (fun _ => .node (List.replicate 32 (.node [])))
          "ErrorCode:631" = (true, "ErrorCode:631") :=
  ⟨by decide,
    (C3_proxy_error_page_classification
      (fun _ => .node (List.replicate 32 (.node []))) "ErrorCode:631"
      (by decide)).2.2 (by decide) (by decide)⟩

/-- C1: when every navigation attempt raises an exception classified as a
proxy error, the retry loop performs exactly `MAX_PROXY_RETRY_ATTEMPTS = 3`
navigation attempts (in particular at most 3), invalidates the proxy once per
failed attempt, and returns the single result with synthetic status 604 whose
error text begins with `"Proxy error after 3 retries"`. -/
theorem C1_proxy_exception_exhaustion (attempt : Nat → NavOutcome)
    (h : ∀ n, ∃ msg reason,
      attempt n = .exn msg ∧ is_proxy_error msg = (true, reason)) :
    (execute_with_proxy_retry attempt).navigations = MAX_PROXY_RETRY_ATTEMPTS
    ∧ (execute_with_proxy_retry attempt).navigations ≤ MAX_PROXY_RETRY_ATTEMPTS
    ∧ (execute_with_proxy_retry attempt).invalidations.length =
        (execute_with_proxy_retry attempt).navigations
    ∧ (execute_with_proxy_retry attempt).result.page_status_code = 604
    ∧ ∃ rest, (execute_with_proxy_retry attempt).result.page_error =
        "Proxy error after 3 retries" ++ rest := by
  obtain ⟨m0, r0, a0, e0⟩ := h 0
  obtain ⟨m1, r1, a1, e1⟩ := h 1
  obtain ⟨m2, r2, a2, e2⟩ := h 2
  have hrun : execute_with_proxy_retry attempt =
      ⟨{ html := "", page_status_code := 604
       , page_error := "Proxy error after 3 retries: " ++ m2 }
      , 3, [r0, r1, r2]⟩ := by
    rw [execute_with_proxy_retry]
    rw [execute_retry_loop]
    simp only [MAX_PROXY_RETRY_ATTEMPTS, a0, e0]
    norm_num
    rw [execute_retry_loop]
    simp only [MAX_PROXY_RETRY_ATTEMPTS, a1, e1]
    norm_num
    rw [execute_retry_loop]
    simp only [MAX_PROXY_RETRY_ATTEMPTS, a2, e2]
    norm_num
  rw [hrun]
  refine ⟨rfl, Nat.le.refl, rfl, rfl, ⟨": " ++ m2, ?_⟩⟩
  rw [← String.append_assoc]
  rfl

/-- Witness for C1: every attempt fails with the chromium tunnel error. -/
theorem C1_proxy_exception_exhaustion_witness :
    (∀ n : Nat, ∃ msg reason,
      (fun _ : Nat => NavOutcome.exn "net::ERR_TUNNEL_CONNECTION_FAILED") n =
          .exn msg
        ∧ is_proxy_error msg = (true, reason))
    ∧ (execute_with_proxy_retry
        (fun _ => NavOutcome.exn
          "net::ERR_TUNNEL_CONNECTION_FAILED")).result.page_status_code =
        604 :=
  have harg : ∀ n : Nat, ∃ msg reason,
      (fun _ : Nat => NavOutcome.exn "net::ERR_TUNNEL_CONNECTION_FAILED") n =
          .exn msg
        ∧ is_proxy_error msg = (true, reason) :=
    fun _ => ⟨"net::ERR_TUNNEL_CONNECTION_FAILED", "tunnel_failed", rfl,
      by decide⟩
  ⟨harg, (C1_proxy_exception_exhaustion _ harg).2.2.2.1⟩

/-- The fixture body has 5001 characters. -/
theorem bigBody_length : bigBody.length = 5001 :=
  List.length_replicate 5001 'a'

/-- The fixture body is not empty. -/
theorem bigBody_data_not_isEmpty : bigBody.data.isEmpty = false :=
  isEmpty_false_of_length_pos bigBody.data
    (by show 0 < (List.replicate 5001 'a').length
        rw [List.length_replicate]; omega)

/-- No pattern that does not start with `'a'` occurs in the fixture body. -/
theorem strContains_bigBody (p : String) (hp : p.data ≠ [])
    (hh : p.data.head? ≠ some 'a') : strContains p bigBody = false := by
  rw [strContains]
  show listContainsSub p.data (List.replicate 5001 'a') = false
  exact listContainsSub_replicate p.data 'a' hp hh 5001

/-- The fixture body parsed with the 32-leaf parse function is not a proxy
error page. -/
theorem is_proxy_error_page_bigBody :
    is_proxy_error_page parse32 bigBody = (false, "") := by
  have h1 := strContains_bigBody "ErrorCode:631" (by decide) (by decide)
  have h2 := strContains_bigBody "ErrorCode:632" (by decide) (by decide)
  have h3 := strContains_bigBody "ErrorCode:633" (by decide) (by decide)
  have h4 := strContains_bigBody "ErrorCode:634" (by decide) (by decide)
  have h5 := strContains_bigBody "ErrorCode:635" (by decide) (by decide)
  have h6 := strContains_bigBody "Proxy Error" (by decide) (by decide)
  have h7 := strContains_bigBody "代理错误" (by decide) (by decide)
  have h8 := strContains_bigBody "隧道连接失败" (by decide) (by decide)
  have hcount : count_leaf_nodes (parse32 bigBody) = 32 := by decide
  simp only [is_proxy_error_page, bigBody_data_not_isEmpty]
  rw [if_neg Bool.false_ne_true, hcount, if_neg (by omega : ¬ (32:Nat) < 32)]
  simp only [PROXY_ERROR_PAGE_PATTERNS, page_pattern_scan, h1, h2, h3, h4, h5,
    h6, h7, h8, Bool.false_eq_true, if_false]

/-- The acceptance condition of `force_get_content` holds for the fixture
body. -/
theorem bigBody_cond : ¬ bigBody.data.isEmpty = true ∧ bigBody.length > 5000 :=
  ⟨by rw [bigBody_data_not_isEmpty]; exact Bool.false_ne_true,
    by rw [bigBody_length]; omega⟩

/-- A read failure followed by a successful long read harvests the body but
records the earlier exception. -/
theorem force_get_content_err_big :
    force_get_content [.error "boom", .ok bigBody] =
      (some bigBody, some "boom") := by
  rw [force_get_content,
    show ([Except.error "boom", Except.ok bigBody] :
      List (Except String String)).take 3 =
        [Except.error "boom", Except.ok bigBody] from rfl]
  rw [force_get_content_loop, force_get_content_loop, if_pos bigBody_cond]

/-- A single successful long read harvests the body with no recorded
exception. -/
theorem force_get_content_ok_big :
    force_get_content [.ok bigBody] = (some bigBody, none) := by
  rw [force_get_content,
    show ([Except.ok bigBody] : List (Except String String)).take 3 =
      [Except.ok bigBody] from rfl]
  rw [force_get_content_loop, if_pos bigBody_cond]

/-- Timeout handler with the force flag off: empty html and status 601. -/
theorem html_timeout_handler_no_force (parse : String → DomNode)
    (reads : List (Except String String)) (msg : String) :
    html_timeout_handler parse false reads msg =
      .ok { html := "", page_status_code := 601
          , page_error := "page load timeout, " ++ msg } := rfl

/-- Timeout handler, force flag on, harvested long body, no read error, body
passing the page check: the body is returned with status 600. -/
theorem html_timeout_handler_force_ok (parse : String → DomNode)
    (reads : List (Except String String)) (msg content s : String)
    (hfc : force_get_content reads = (some content, none))
    (hlen : content.length > 5000)
    (hpage : is_proxy_error_page parse content = (false, s)) :
    html_timeout_handler parse true reads msg =
      .ok { html := content, page_status_code := 600
          , page_error := "page load timeout, " ++ msg } := by
  have hd : content.data.length > 5000 := hlen
  have hcond : ¬ content.data.isEmpty = true ∧ content.length > 5000 :=
    ⟨by rw [isEmpty_false_of_length_pos content.data (by omega)]
        exact Bool.false_ne_true, hlen⟩
  simp only [html_timeout_handler, hfc]
  rw [if_pos hcond]
  simp only [hpage]
  rfl

/-- Timeout handler, force flag on, harvested long body passing the page
check, but an earlier read iteration recorded an exception: the body is
returned with status 601. -/
theorem html_timeout_handler_force_err (parse : String → DomNode)
    (reads : List (Except String String)) (msg content err s : String)
    (hfc : force_get_content reads = (some content, some err))
    (hlen : content.length > 5000)
    (hpage : is_proxy_error_page parse content = (false, s)) :
    html_timeout_handler parse true reads msg =
      .ok { html := content, page_status_code := 601
          , page_error := "page load failed while force read content, "
              ++ err } := by
  have hd : content.data.length > 5000 := hlen
  have hcond : ¬ content.data.isEmpty = true ∧ content.length > 5000 :=
    ⟨by rw [isEmpty_false_of_length_pos content.data (by omega)]
        exact Bool.false_ne_true, hlen⟩
  simp only [html_timeout_handler, hfc]
  rw [if_pos hcond]
  simp only [hpage]
  rfl

/-- Timeout handler, force flag on, no harvested body longer than 5000
characters: empty html and status 601. -/
theorem html_timeout_handler_force_short (parse : String → DomNode)
    (reads : List (Except String String)) (msg : String)
    (content : Option String) (lastErr : Option String)
    (hfc : force_get_content reads = (content, lastErr))
    (hshort : ∀ c, content = some c → c.length ≤ 5000) :
    html_timeout_handler parse true reads msg =
      .ok { html := "", page_status_code := 601
          , page_error := "page load timeout, " ++ msg } := by
  cases content with
  | none =>
    simp only [html_timeout_handler, hfc]
    simp
  | some c =>
    have hc := hshort c rfl
    have hcond : ¬ (¬ c.data.isEmpty = true ∧ c.length > 5000) := by
      rintro ⟨-, hgt⟩
      omega
    simp only [html_timeout_handler, hfc]
    rw [if_neg hcond]
    simp

/-- C4 counterexample: with `force_content_on_timeout` set, a failing first
read followed by a harvested 5001-character body that passes the
proxy-error-page check is returned with `page_status_code` 601, not 600 as
the claim states: the recorded `last_error` of the earlier iteration forces
the 601 status even though the body is returned. -/
theorem C4_counterexample :
    html_timeout_handler parse32 true [.error "boom", .ok bigBody] "t" =
      .ok { html := bigBody, page_status_code := 601
          , page_error := "page load failed while force read content, boom" }
    := by
  rw [html_timeout_handler_force_err parse32 _ "t" bigBody "boom" ""
    force_get_content_err_big (by rw [bigBody_length]; omega)
    is_proxy_error_page_bigBody]
  rfl

/-- C4 (amended): on a navigation timeout the handler performs up to 3 read
iterations; with the force flag off it returns empty html with status 601;
with the flag on, a harvested body longer than 5000 characters that passes
the proxy-error-page check is returned with status 600 when no read
iteration raised an exception, and with status 601 (still carrying the body)
when an earlier read iteration raised; when no body longer than 5000
characters is obtained, it returns empty html with status 601. -/
theorem C4_timeout_handler_behaviour (parse : String → DomNode)
    (reads : List (Except String String)) (msg : String) :
    (html_timeout_handler parse false reads msg =
        .ok { html := "", page_status_code := 601
            , page_error := "page load timeout, " ++ msg })
    ∧ (∀ content, force_get_content reads = (some content, none) →
        content.length > 5000 →
        (is_proxy_error_page parse content).1 = false →
        html_timeout_handler parse true reads msg =
          .ok { html := content, page_status_code := 600
              , page_error := "page load timeout, " ++ msg })
    ∧ (∀ content err, force_get_content reads = (some content, some err) →
        content.length > 5000 →
        (is_proxy_error_page parse content).1 = false →
        html_timeout_handler parse true reads msg =
          .ok { html := content, page_status_code := 601
              , page_error := "page load failed while force read content, "
                  ++ err })
    ∧ (∀ content lastErr, force_get_content reads = (content, lastErr) →
        (∀ c, content = some c → c.length ≤ 5000) →
        html_timeout_handler parse true reads msg =
          .ok { html := "", page_status_code := 601
              , page_error := "page load timeout, " ++ msg }) := by
  refine ⟨html_timeout_handler_no_force parse reads msg, ?_, ?_, ?_⟩
  · intro content hfc hlen hpp
    rcases hx : is_proxy_error_page parse content with ⟨b, s⟩
    rw [hx] at hpp
    subst hpp
    exact html_timeout_handler_force_ok parse reads msg content s hfc hlen hx
  · intro content err hfc hlen hpp
    rcases hx : is_proxy_error_page parse content with ⟨b, s⟩
    rw [hx] at hpp
    subst hpp
    exact html_timeout_handler_force_err parse reads msg content err s hfc
      hlen hx
  · intro content lastErr hfc hshort
    exact html_timeout_handler_force_short parse reads msg content lastErr
      hfc hshort

/-- Witness for C4 (amended): a single successful 5001-character read with no
read error is returned with status 600. -/
theorem C4_timeout_handler_witness :
    force_get_content [Except.ok bigBody] = (some bigBody, none)
    ∧ bigBody.length > 5000
    ∧ (is_proxy_error_page parse32 bigBody).1 = false
    ∧ html_timeout_handler parse32 true [Except.ok bigBody] "t" =
        .ok { html := bigBody, page_status_code := 600
            , page_error := "page load timeout, t" } :=
  ⟨force_get_content_ok_big, by rw [bigBody_length]; omega,
    by rw [is_proxy_error_page_bigBody],
    by
      rw [(C4_timeout_handler_behaviour parse32 [Except.ok bigBody] "t").2.1
        bigBody force_get_content_ok_big (by rw [bigBody_length]; omega)
        (by rw [is_proxy_error_page_bigBody])]
      rfl⟩

/-- C5: the cache lookup succeeds exactly when a stored record exists with
the same url hash, the same engine, status 200 and `created_at` newer than 24
hours before now; on such a hit the orchestrator returns the stored
`response_body` with `cache_hit = 1` and the history table is unchanged (no
new record is appended for the request). -/
theorem C5_cache_policy (hashUrl : String → String) (url bt : String)
    (now : Int) (db : List HistoryRecord) (fetched : HtmlResponse)
    (newRecord : HistoryRecord) :
    ((get_request_history hashUrl url bt now db).isSome ↔
      ∃ r ∈ db, r.url_hash = hashUrl url ∧ r.status_code = 200
        ∧ r.browser_type = bt ∧ now - ONE_DAY < r.created_at)
    ∧ (∀ r, get_request_history hashUrl url bt now db = some r →
        get_html_base_cache hashUrl url bt true now db fetched newRecord =
          ({ html := r.response_body, page_status_code := r.status_code
           , page_error := "", cache_hit := 1 }, db)) := by
  constructor
  · rw [get_request_history]
    constructor
    · intro hs
      cases hfil : db.filter (fun r =>
          r.url_hash == hashUrl url && r.status_code == 200
            && r.browser_type == bt
            && decide (now - ONE_DAY < r.created_at)) with
      | nil => rw [hfil] at hs; simp at hs
      | cons x xs =>
        have hx : x ∈ db.filter (fun r =>
            r.url_hash == hashUrl url && r.status_code == 200
              && r.browser_type == bt
              && decide (now - ONE_DAY < r.created_at)) := by
          rw [hfil]; exact List.mem_cons_self x xs
        have hmem := List.mem_filter.mp hx
        refine ⟨x, hmem.1, ?_⟩
        have hpred := hmem.2
        simp only [Bool.and_eq_true, beq_iff_eq, decide_eq_true_eq] at hpred
        exact ⟨hpred.1.1.1, hpred.1.1.2, hpred.1.2, hpred.2⟩
    · rintro ⟨r, hmem, h1, h2, h3, h4⟩
      have hr : r ∈ db.filter (fun r =>
          r.url_hash == hashUrl url && r.status_code == 200
            && r.browser_type == bt
            && decide (now - ONE_DAY < r.created_at)) := by
        refine List.mem_filter.mpr ⟨hmem, ?_⟩
        simp only [Bool.and_eq_true, beq_iff_eq, decide_eq_true_eq]
        exact ⟨⟨⟨h1, h2⟩, h3⟩, h4⟩
      cases hfil : db.filter (fun r =>
          r.url_hash == hashUrl url && r.status_code == 200
            && r.browser_type == bt
            && decide (now - ONE_DAY < r.created_at)) with
      | nil => rw [hfil] at hr; cases hr
      | cons x xs => rfl
  · intro r heq
    simp only [get_html_base_cache, heq]
    simp

/-- Witness for C5: a one-row table holding a fresh status-200 record for the
hash and engine of the request; the lookup hits and the hit returns the
stored body with `cache_hit = 1`, leaving the table unchanged. -/
theorem C5_cache_policy_witness :
    get_request_history (fun _ => "h") "u" "chrome" 100000
        [⟨"h", "chrome", 200, "body", 99999⟩] =
      some ⟨"h", "chrome", 200, "body", 99999⟩
    ∧ get_html_base_cache (fun _ => "h") "u" "chrome" true 100000
        [⟨"h", "chrome", 200, "body", 99999⟩]
        { html := "", page_status_code := 0, page_error := "" }
        ⟨"h", "chrome", 200, "body", 99999⟩ =
      ({ html := "body", page_status_code := 200, page_error := ""
       , cache_hit := 1 }, [⟨"h", "chrome", 200, "body", 99999⟩]) :=
  ⟨by decide,
    (C5_cache_policy (fun _ => "h") "u" "chrome" 100000
      [⟨"h", "chrome", 200, "body", 99999⟩]
      { html := "", page_status_code := 0, page_error := "" }
      ⟨"h", "chrome", 200, "body", 99999⟩).2
      ⟨"h", "chrome", 200, "body", 99999⟩ (by decide)⟩

/-- After `n + 1` bursts from the empty pool, the cached proxy is the fetched
one with reuse count `n + 1`. -/
theorem pool_burst_cached (proxy ptype : String) (n : Nat) :
    (pool_burst proxy ptype (n + 1)).cached = some ⟨proxy, ptype, n + 1⟩ := by
  induction n with
  | zero => rfl
  | succ n ih =>
    rw [pool_burst]
    simp only [pool_get_proxy, ih]

/-- C6: a `get` with a cached proxy present and `force_refresh` false
increments `reuse_count` by exactly one and returns the cached server;
installing a new proxy resets `reuse_count` to 1; a burst of `n` consecutive
gets from an initially empty pool with no invalidation ends with the current
reuse count equal to `n`. -/
theorem C6_proxy_pool_reuse (st : PoolState) (cp : CachedProxy)
    (fetched : Option String) (proxy ptype : String) (n : Nat)
    (hc : st.cached = some cp) :
    pool_get_proxy st false fetched ptype =
        (some cp.server,
          ⟨some { cp with reuse_count := cp.reuse_count + 1 },
            cp.reuse_count + 1⟩)
    ∧ (∀ st' force, st'.cached = none ∨ force = true →
        pool_get_proxy st' force (some proxy) ptype =
          (some proxy, ⟨some ⟨proxy, ptype, 1⟩, 1⟩))
    ∧ pool_current_reuse_count (pool_burst proxy ptype n) = n := by
  refine ⟨by simp only [pool_get_proxy, hc], ?_, ?_⟩
  · intro st' force hor
    rcases hor with hnone | hforce
    · simp only [pool_get_proxy, hnone]
    · subst hforce
      cases hst : st'.cached with
      | none => simp only [pool_get_proxy, hst]
      | some cp' => simp only [pool_get_proxy, hst]
  · cases n with
    | zero => rfl
    | succ n => simp only [pool_current_reuse_count, pool_burst_cached]

/-- Witness for C6: a pool caching a proxy with reuse count 2 serves it with
reuse count 3, and a burst of 5 gets from the empty pool ends at reuse count
5. -/
theorem C6_proxy_pool_reuse_witness :
    pool_get_proxy ⟨some ⟨"http://p", "dynamic", 2⟩, 2⟩ false none "dynamic" =
        (some "http://p", ⟨some ⟨"http://p", "dynamic", 3⟩, 3⟩)
    ∧ pool_current_reuse_count (pool_burst "http://p" "dynamic" 5) = 5 :=
  ⟨(C6_proxy_pool_reuse ⟨some ⟨"http://p", "dynamic", 2⟩, 2⟩
      ⟨"http://p", "dynamic", 2⟩ none "http://p" "dynamic" 5 rfl).1,
    (C6_proxy_pool_reuse ⟨some ⟨"http://p", "dynamic", 2⟩, 2⟩
      ⟨"http://p", "dynamic", 2⟩ none "http://p" "dynamic" 5 rfl).2.2⟩

/-- C7 counterexample: in the orchestrator's statement order the proxy is
requested from the pool before the admission slot is acquired, and no
admission slot is held at the proxy request — the claim's ordering (slot
before proxy) is false for the fetch trace. -/
theorem C7_counterexample :
    get_html_base_trace.indexOf OrchEvent.requestProxy <
        get_html_base_trace.indexOf OrchEvent.acquireSlot
      ∧ slots_held get_html_base_trace
          (get_html_base_trace.indexOf OrchEvent.requestProxy) = 0 := by
  decide

/-- C7 (amended): the orchestrator publishes `waiting_requests`, then asks
the proxy pool for a proxy, and only then acquires the admission slot (which
it holds when creating the browser page); it holds no admission slot while
requesting the proxy. -/
theorem C7_orchestrator_order :
    get_html_base_trace.indexOf OrchEvent.publishWaiting <
        get_html_base_trace.indexOf OrchEvent.requestProxy
      ∧ get_html_base_trace.indexOf OrchEvent.requestProxy <
        get_html_base_trace.indexOf OrchEvent.acquireSlot
      ∧ get_html_base_trace.indexOf OrchEvent.acquireSlot <
        get_html_base_trace.indexOf OrchEvent.createBrowserPage
      ∧ (∀ i, i < get_html_base_trace.length →
          get_html_base_trace[i]? = some OrchEvent.requestProxy →
          slots_held get_html_base_trace i = 0)
      ∧ (∀ i, i < get_html_base_trace.length →
          get_html_base_trace[i]? = some OrchEvent.createBrowserPage →
          slots_held get_html_base_trace i = 1) := by
  decide

/-- C9: evaluation of the three engines' `initialize` at a failing launch.
Chrome and Firefox leave the driver running (and Firefox keeps the stale
`self.playwright` reference) while the error propagates; only WebKit stops
the driver as the claim requires; `ensure_initialized` leaves the instance
uninitialized in all cases. -/
theorem C9_init_failure_driver_not_stopped :
    (chrome_browser_init false).driver_started = true
      ∧ (chrome_browser_init false).driver_stopped = false
      ∧ (firefox_browser_init false).driver_started = true
      ∧ (firefox_browser_init false).driver_stopped = false
      ∧ (firefox_browser_init false).self_playwright_set = true
      ∧ (webkit_browser_init false).driver_stopped = true
      ∧ (webkit_browser_init false).self_playwright_set = false
      ∧ ensure_initialized (chrome_browser_init false) = (false, false)
      ∧ ensure_initialized (firefox_browser_init false) = (false, false) := by
  decide

/-- The mojibake fixture has 10501 characters. -/
theorem mojibake_text_length : mojibake_text.length = 10501 := by
  rw [mojibake_text, List.length_append, List.length_replicate,
    List.length_replicate]

/-- The mojibake fixture counts 501 suspicious markers: all 501 replacement
characters sit after position 10000 and no garbled pattern occurs. -/
theorem total_suspicious_mojibake : total_suspicious mojibake_text = 501 := by
  have hrep : pyCount [Char.ofNat 0xFFFD] mojibake_text = 501 := by
    rw [mojibake_text,
      pyCount_replicate_append [Char.ofNat 0xFFFD] 'a' (by decide) (by decide)]
    exact pyCount_single_replicate replacementChar 501
  have g1 : pyCount ("锟斤拷".data) mojibake_text = 0 := by
    rw [mojibake_text, pyCount_replicate_append _ 'a' (by decide) (by decide),
      pyCount_replicate_zero _ replacementChar (by decide) (by decide)]
  have g2 : pyCount ("锟".data) mojibake_text = 0 := by
    rw [mojibake_text, pyCount_replicate_append _ 'a' (by decide) (by decide),
      pyCount_replicate_zero _ replacementChar (by decide) (by decide)]
  have g3 : pyCount ("ï¿½".data) mojibake_text = 0 := by
    rw [mojibake_text, pyCount_replicate_append _ 'a' (by decide) (by decide),
      pyCount_replicate_zero _ replacementChar (by decide) (by decide)]
  have g4 : pyCount ("â€".data) mojibake_text = 0 := by
    rw [mojibake_text, pyCount_replicate_append _ 'a' (by decide) (by decide),
      pyCount_replicate_zero _ replacementChar (by decide) (by decide)]
  have g5 : pyCount ("Ã©".data) mojibake_text = 0 := by
    rw [mojibake_text, pyCount_replicate_append _ 'a' (by decide) (by decide),
      pyCount_replicate_zero _ replacementChar (by decide) (by decide)]
  have g6 : pyCount ("Ã¨".data) mojibake_text = 0 := by
    rw [mojibake_text, pyCount_replicate_append _ 'a' (by decide) (by decide),
      pyCount_replicate_zero _ replacementChar (by decide) (by decide)]
  have g7 : pyCount ("Ã¯".data) mojibake_text = 0 := by
    rw [mojibake_text, pyCount_replicate_append _ 'a' (by decide) (by decide),
      pyCount_replicate_zero _ replacementChar (by decide) (by decide)]
  rw [total_suspicious, garbled_patterns]
  rw [List.map_cons, List.map_cons, List.map_cons, List.map_cons,
    List.map_cons, List.map_cons, List.map_cons, List.map_nil]
  rw [hrep, g1, g2, g3, g4, g5, g6, g7]
  rfl

/-- The first 10000 characters of the mojibake fixture carry no suspicious
marker at all. -/
theorem total_suspicious_mojibake_take :
    total_suspicious (mojibake_text.take 10000) = 0 := by
  have htake : mojibake_text.take 10000 = List.replicate 10000 'a' := by
    rw [mojibake_text]
    exact List.take_left' (List.length_replicate 10000 'a')
  have hrep : pyCount [Char.ofNat 0xFFFD] (List.replicate 10000 'a') = 0 :=
    pyCount_replicate_zero [Char.ofNat 0xFFFD] 'a' (by decide) (by decide)
      10000
  have g1 : pyCount ("锟斤拷".data) (List.replicate 10000 'a') = 0 :=
    pyCount_replicate_zero ("锟斤拷".data) 'a' (by decide) (by decide) 10000
  have g2 : pyCount ("锟".data) (List.replicate 10000 'a') = 0 :=
    pyCount_replicate_zero ("锟".data) 'a' (by decide) (by decide) 10000
  have g3 : pyCount ("ï¿½".data) (List.replicate 10000 'a') = 0 :=
    pyCount_replicate_zero ("ï¿½".data) 'a' (by decide) (by decide) 10000
  have g4 : pyCount ("â€".data) (List.replicate 10000 'a') = 0 :=
    pyCount_replicate_zero ("â€".data) 'a' (by decide) (by decide) 10000
  have g5 : pyCount ("Ã©".data) (List.replicate 10000 'a') = 0 :=
    pyCount_replicate_zero ("Ã©".data) 'a' (by decide) (by decide) 10000
  have g6 : pyCount ("Ã¨".data) (List.replicate 10000 'a') = 0 :=
    pyCount_replicate_zero ("Ã¨".data) 'a' (by decide) (by decide) 10000
  have g7 : pyCount ("Ã¯".data) (List.replicate 10000 'a') = 0 :=
    pyCount_replicate_zero ("Ã¯".data) 'a' (by decide) (by decide) 10000
  rw [htake, total_suspicious, garbled_patterns]
  rw [List.map_cons, List.map_cons, List.map_cons, List.map_cons,
    List.map_cons, List.map_cons, List.map_cons, List.map_nil]
  rw [hrep, g1, g2, g3, g4, g5, g6, g7]
  rfl

/-- C8 counterexample: a 10501-character text whose 501 replacement
characters all sit after position 10000 is rejected by the mojibake check —
the markers are counted over the whole text while the denominator is capped
at 10000 — even though its first 10000 characters contain no marker, which
the claim says implies acceptance. -/
theorem C8_counterexample :
    has_decoding_errors mojibake_text = true
      ∧ total_suspicious (mojibake_text.take 10000) = 0 := by
  refine ⟨?_, total_suspicious_mojibake_take⟩
  have hE : mojibake_text.isEmpty = false :=
    isEmpty_false_of_length_pos mojibake_text
      (by rw [mojibake_text_length]; omega)
  simp only [has_decoding_errors]
  rw [hE, if_neg Bool.false_ne_true]
  rw [total_suspicious_mojibake, mojibake_text_length]
  rw [show min (10501 : Nat) 10000 = 10000 from by omega]
  rw [decide_eq_true_eq]
  norm_num

/-- C8 (amended): the mojibake check rejects a text exactly when it is
non-empty and the count of U+FFFD replacement characters plus occurrences of
the garbled patterns — taken over the entire text, not only its first 10000
characters — exceeds 5% of `min(length, 10000)`; a text with no suspicious
marker anywhere is always accepted. -/
theorem C8_mojibake_heuristic (text : List Char) :
    (has_decoding_errors text = true ↔
      text ≠ [] ∧ 100 * total_suspicious text > 5 * min text.length 10000)
    ∧ (total_suspicious text = 0 → has_decoding_errors text = false) := by
  cases text with
  | nil =>
    constructor
    · constructor
      · intro hcontra
        exact absurd hcontra (by decide)
      · rintro ⟨hne, -⟩
        exact absurd rfl hne
    · intro
      rfl
  | cons a t =>
    have hisE : (a :: t : List Char).isEmpty = false := rfl
    have hspos : 0 < min (a :: t).length 10000 := by
      simp only [List.length_cons]
      omega
    constructor
    · simp only [has_decoding_errors]
      rw [hisE, if_neg Bool.false_ne_true, decide_eq_true_eq]
      rw [gt_iff_lt, div_lt_div_iff₀ (by norm_num)
        (by exact_mod_cast hspos : (0 : ℚ) < (min (a :: t).length 10000 : ℕ))]
      constructor
      · intro h
        refine ⟨by simp, ?_⟩
        have hcast : 5 * min (a :: t).length 10000 <
            total_suspicious (a :: t) * 100 := by exact_mod_cast h
        omega
      · rintro ⟨-, h⟩
        exact_mod_cast (by omega : 5 * min (a :: t).length 10000 <
          total_suspicious (a :: t) * 100)
    · intro h0
      simp only [has_decoding_errors]
      rw [hisE, if_neg Bool.false_ne_true, h0]
      apply decide_eq_false
      push_cast
      rw [zero_div]
      norm_num

/-- Witness for C8 (amended): a short marker-free text is accepted. -/
theorem C8_mojibake_heuristic_witness :
    total_suspicious ("abc".data) = 0
      ∧ has_decoding_errors ("abc".data) = false :=
  ⟨by simp [total_suspicious, garbled_patterns, pyCount],
    (C8_mojibake_heuristic ("abc".data)).2
      (by simp [total_suspicious, garbled_patterns, pyCount])⟩

end PlaywrightService
